import Mathlib

/-!
Verification of the ICE candidate-type classification and ICE parameter
record layer of a WebRTC-style peer connection stack.

The development shallowly embeds, from
`src/peer/ice/ice_candidate/ice_candidate_type.rs`:
  * the `ICECandidateType` enumeration,
  * its `Default` implementation,
  * the wire-token constants and `From<&str>` conversion,
  * the `From<CandidateType>` conversion from the transport library,
  * the `Display` implementation,
  * the serde-derived (externally tagged, unit-variant) serialization,
and from `src/peer/ice/mod.rs`:
  * the `ICEParameters` record, its derived `Default`, `PartialEq`,
    and serde serialization.
-/

/-- The `ICECandidateType` enumeration from
`src/peer/ice/ice_candidate/ice_candidate_type.rs`, variants in source
order. -/
inductive ICECandidateType where
  | Unspecified
  | Host
  | Srflx
  | Prflx
  | Relay
  deriving DecidableEq, Repr

/-- Constant `ICE_CANDIDATE_TYPE_HOST_STR` from the source. -/
def ICE_CANDIDATE_TYPE_HOST_STR : String := "host"

/-- Constant `ICE_CANDIDATE_TYPE_SRFLX_STR` from the source. -/
def ICE_CANDIDATE_TYPE_SRFLX_STR : String := "srflx"

/-- Constant `ICE_CANDIDATE_TYPE_PRFLX_STR` from the source. -/
def ICE_CANDIDATE_TYPE_PRFLX_STR : String := "prflx"

/-- Constant `ICE_CANDIDATE_TYPE_RELAY_STR` from the source. -/
def ICE_CANDIDATE_TYPE_RELAY_STR : String := "relay"

/-- Modelled from the spec: the crate-root constant `crate::UNSPECIFIED_STR`
is referenced by the `Display` implementation but its definition is not part
of the two module files. The spec's sentinel display string (example: a
fixed sentinel such as "Unspecified", never empty, never one of the four
wire tokens) and the module's own unit tests (which expect
`Unspecified.to_string() == "Unspecified"`) fix its value. -/
def UNSPECIFIED_STR : String := "Unspecified"

/-- Embedding of `impl From<&str> for ICECandidateType`: an exact match on
the four wire-token constants, every other string falling to the `_` arm. -/
def ICECandidateType.from_str (raw : String) : ICECandidateType :=
  if raw = ICE_CANDIDATE_TYPE_HOST_STR then ICECandidateType.Host
  else if raw = ICE_CANDIDATE_TYPE_SRFLX_STR then ICECandidateType.Srflx
  else if raw = ICE_CANDIDATE_TYPE_PRFLX_STR then ICECandidateType.Prflx
  else if raw = ICE_CANDIDATE_TYPE_RELAY_STR then ICECandidateType.Relay
  else ICECandidateType.Unspecified

/-- The transport library's candidate-type enumeration
(`ice::candidate::CandidateType` of the external `ice` crate): its four
known kinds plus its own `Unspecified` kind, which is the only inhabitant
of the `_` arm of the conversion below. -/
inductive CandidateType where
  | Unspecified
  | Host
  | ServerReflexive
  | PeerReflexive
  | Relay
  deriving DecidableEq, Repr

/-- Embedding of `impl From<CandidateType> for ICECandidateType`. -/
def ICECandidateType.from_candidate_type : CandidateType → ICECandidateType
  | CandidateType.Host => ICECandidateType.Host
  | CandidateType.ServerReflexive => ICECandidateType.Srflx
  | CandidateType.PeerReflexive => ICECandidateType.Prflx
  | CandidateType.Relay => ICECandidateType.Relay
  | _ => ICECandidateType.Unspecified

/-- Embedding of `impl fmt::Display for ICECandidateType`: the four named
variants write their wire-token constant, the `_` arm writes
`crate::UNSPECIFIED_STR`. -/
def ICECandidateType.render : ICECandidateType → String
  | ICECandidateType.Host => ICE_CANDIDATE_TYPE_HOST_STR
  | ICECandidateType.Srflx => ICE_CANDIDATE_TYPE_SRFLX_STR
  | ICECandidateType.Prflx => ICE_CANDIDATE_TYPE_PRFLX_STR
  | ICECandidateType.Relay => ICE_CANDIDATE_TYPE_RELAY_STR
  | _ => UNSPECIFIED_STR

/-- Embedding of `impl Default for ICECandidateType`. -/
def ICECandidateType.default_value : ICECandidateType := ICECandidateType.Unspecified

/-- The serde-derived serialization of a unit-variant enum is externally
tagged: each variant serializes to its tag string, which is the variant
name unless renamed by a `serde(rename)` attribute. The source renames the
four named variants to the wire tokens and leaves `Unspecified` unrenamed. -/
def ICECandidateType.serdeTag : ICECandidateType → String
  | ICECandidateType.Unspecified => "Unspecified"
  | ICECandidateType.Host => "host"
  | ICECandidateType.Srflx => "srflx"
  | ICECandidateType.Prflx => "prflx"
  | ICECandidateType.Relay => "relay"

/-- The serde-derived deserialization of a unit-variant enum: an exact
match on the declared tags (renames applied); any other tag is a
deserialization error, there is no fallback arm in the derived code. -/
def ICECandidateType.serdeFromTag (tag : String) : Except String ICECandidateType :=
  if tag = "Unspecified" then Except.ok ICECandidateType.Unspecified
  else if tag = "host" then Except.ok ICECandidateType.Host
  else if tag = "srflx" then Except.ok ICECandidateType.Srflx
  else if tag = "prflx" then Except.ok ICECandidateType.Prflx
  else if tag = "relay" then Except.ok ICECandidateType.Relay
  else Except.error ("unknown variant " ++ tag)

/-- The `ICEParameters` record from `src/peer/ice/mod.rs`. -/
structure ICEParameters where
  username_fragment : String
  password : String
  ice_lite : Bool
  deriving DecidableEq, Repr

/-- The derived `Default` for `ICEParameters`: field-wise defaults, i.e.
empty strings and `false`. -/
def ICEParameters.default_value : ICEParameters :=
  { username_fragment := "", password := "", ice_lite := false }

/-- The derived `PartialEq` for `ICEParameters`: field-wise equality. -/
def ICEParameters.eq (a b : ICEParameters) : Bool :=
  a.username_fragment == b.username_fragment
    && a.password == b.password
    && a.ice_lite == b.ice_lite

/-- A serialized field value in the structured serialization format. -/
inductive SerdeValue where
  | str (s : String)
  | boolean (b : Bool)
  deriving DecidableEq, Repr

/-- The serde-derived serialization of the `ICEParameters` struct: an
object with the three field names in declaration order. -/
def ICEParameters.serialize (p : ICEParameters) : List (String × SerdeValue) :=
  [("username_fragment", SerdeValue.str p.username_fragment),
   ("password", SerdeValue.str p.password),
   ("ice_lite", SerdeValue.boolean p.ice_lite)]

/-- The serde-derived deserialization of the `ICEParameters` struct: each
field is looked up by name and must carry a value of the field's type. -/
def ICEParameters.deserialize (fields : List (String × SerdeValue)) :
    Except String ICEParameters :=
  match fields.lookup "username_fragment",
        fields.lookup "password",
        fields.lookup "ice_lite" with
  | some (SerdeValue.str u), some (SerdeValue.str pw), some (SerdeValue.boolean l) =>
      Except.ok { username_fragment := u, password := pw, ice_lite := l }
  | _, _, _ => Except.error "missing or mistyped field"

/-- C1: the string-to-classifier conversion is total and never fails: each
of the four exact lowercase tokens "host", "srflx", "prflx", "relay" maps
to its corresponding variant, and every other string — in particular the
empty string, case variants such as "PRFLX", and the sentinel display
string itself — maps to `Unspecified`. -/
theorem from_str_total_c1 (s : String)
    (h1 : s ≠ "host") (h2 : s ≠ "srflx") (h3 : s ≠ "prflx") (h4 : s ≠ "relay") :
    ICECandidateType.from_str "host" = ICECandidateType.Host ∧
    ICECandidateType.from_str "srflx" = ICECandidateType.Srflx ∧
    ICECandidateType.from_str "prflx" = ICECandidateType.Prflx ∧
    ICECandidateType.from_str "relay" = ICECandidateType.Relay ∧
    ICECandidateType.from_str UNSPECIFIED_STR = ICECandidateType.Unspecified ∧
    ICECandidateType.from_str s = ICECandidateType.Unspecified := by
  refine ⟨by decide, by decide, by decide, by decide, by decide, ?_⟩
  unfold ICECandidateType.from_str ICE_CANDIDATE_TYPE_HOST_STR
    ICE_CANDIDATE_TYPE_SRFLX_STR ICE_CANDIDATE_TYPE_PRFLX_STR
    ICE_CANDIDATE_TYPE_RELAY_STR
  rw [if_neg h1, if_neg h2, if_neg h3, if_neg h4]

/-- Witness for C1 at the concrete non-token inputs "PRFLX" and "". -/
theorem from_str_total_c1_witness :
    ICECandidateType.from_str "PRFLX" = ICECandidateType.Unspecified ∧
    ICECandidateType.from_str "" = ICECandidateType.Unspecified :=
  ⟨(from_str_total_c1 "PRFLX" (by decide) (by decide) (by decide) (by decide)).2.2.2.2.2,
   (from_str_total_c1 "" (by decide) (by decide) (by decide) (by decide)).2.2.2.2.2⟩

/-- C2: rendering the result of parsing each of the four canonical wire
tokens yields that token back: parse followed by render is the identity on
"host", "srflx", "prflx" and "relay". -/
theorem render_from_str_id_c2 :
    (ICECandidateType.from_str "host").render = "host" ∧
    (ICECandidateType.from_str "srflx").render = "srflx" ∧
    (ICECandidateType.from_str "prflx").render = "prflx" ∧
    (ICECandidateType.from_str "relay").render = "relay" := by
  decide

/-- C3 counterexample: parsing the display string of `Unspecified` DOES
return `Unspecified` — the sentinel display string "Unspecified" is not one
of the four wire tokens, so the catch-all arm of the string conversion
yields `Unspecified`, exactly as the module's own unit test expects. -/
theorem roundtrip_unspecified_c3_counterexample :
    ICECandidateType.from_str (ICECandidateType.Unspecified.render)
      = ICECandidateType.Unspecified := by
  decide

/-- C3 (amended): the round-trip law `from_str (render v) = v` holds for
all five variants: for the four named variants via their wire tokens, and
for `Unspecified` because its display string falls to the catch-all arm of
the string conversion. -/
theorem roundtrip_all_c3 (v : ICECandidateType) :
    ICECandidateType.from_str v.render = v := by
  cases v <;> decide

/-- C4: the render operation is total over all variants (a total Lean
function by construction) and never produces the empty string, and
`render Unspecified` is a fixed sentinel string distinct from each of the
four canonical wire tokens. -/
theorem render_total_c4 (v : ICECandidateType) :
    v.render ≠ "" ∧
    ICECandidateType.Unspecified.render ≠ "host" ∧
    ICECandidateType.Unspecified.render ≠ "srflx" ∧
    ICECandidateType.Unspecified.render ≠ "prflx" ∧
    ICECandidateType.Unspecified.render ≠ "relay" := by
  cases v <;> exact ⟨by decide, by decide, by decide, by decide, by decide⟩

/-- C5: the conversion from the transport library's candidate type maps
the four known transport kinds one-to-one to the corresponding classifier
variant, and every transport kind outside that closed set maps to
`Unspecified`; the conversion is a total Lean function, hence never
fails. -/
theorem from_candidate_type_c5 (t : CandidateType)
    (h1 : t ≠ CandidateType.Host)
    (h2 : t ≠ CandidateType.ServerReflexive)
    (h3 : t ≠ CandidateType.PeerReflexive)
    (h4 : t ≠ CandidateType.Relay) :
    ICECandidateType.from_candidate_type CandidateType.Host = ICECandidateType.Host ∧
    ICECandidateType.from_candidate_type CandidateType.ServerReflexive = ICECandidateType.Srflx ∧
    ICECandidateType.from_candidate_type CandidateType.PeerReflexive = ICECandidateType.Prflx ∧
    ICECandidateType.from_candidate_type CandidateType.Relay = ICECandidateType.Relay ∧
    ICECandidateType.from_candidate_type t = ICECandidateType.Unspecified := by
  refine ⟨rfl, rfl, rfl, rfl, ?_⟩
  cases t <;> first | rfl | exact absurd rfl (by assumption)

/-- Witness for C5 at the transport kind outside the four known kinds. -/
theorem from_candidate_type_c5_witness :
    ICECandidateType.from_candidate_type CandidateType.Unspecified
      = ICECandidateType.Unspecified :=
  (from_candidate_type_c5 CandidateType.Unspecified
    (by decide) (by decide) (by decide) (by decide)).2.2.2.2

/-- C6 counterexample: `Unspecified` DOES have a defined serialized form
under the derived structured serialization: it serializes to the tag
"Unspecified" (the unrenamed variant name), and that tag deserializes back
to `Unspecified`. -/
theorem serde_unspecified_c6_counterexample :
    ICECandidateType.Unspecified.serdeTag = "Unspecified" ∧
    ICECandidateType.serdeFromTag "Unspecified"
      = Except.ok ICECandidateType.Unspecified :=
  ⟨rfl, rfl⟩

/-- C6 (amended): through the structured (tagged) serialization format the
four named variants serialize and deserialize using exactly the four wire
tokens "host", "srflx", "prflx", "relay"; `Unspecified` also has a defined
serialized form, the tag "Unspecified", which is distinct from the four
wire tokens. -/
theorem serde_tags_c6 :
    ICECandidateType.Host.serdeTag = "host" ∧
    ICECandidateType.Srflx.serdeTag = "srflx" ∧
    ICECandidateType.Prflx.serdeTag = "prflx" ∧
    ICECandidateType.Relay.serdeTag = "relay" ∧
    ICECandidateType.serdeFromTag "host" = Except.ok ICECandidateType.Host ∧
    ICECandidateType.serdeFromTag "srflx" = Except.ok ICECandidateType.Srflx ∧
    ICECandidateType.serdeFromTag "prflx" = Except.ok ICECandidateType.Prflx ∧
    ICECandidateType.serdeFromTag "relay" = Except.ok ICECandidateType.Relay ∧
    ICECandidateType.Unspecified.serdeTag = "Unspecified" ∧
    ICECandidateType.Unspecified.serdeTag ≠ "host" ∧
    ICECandidateType.Unspecified.serdeTag ≠ "srflx" ∧
    ICECandidateType.Unspecified.serdeTag ≠ "prflx" ∧
    ICECandidateType.Unspecified.serdeTag ≠ "relay" :=
  ⟨rfl, rfl, rfl, rfl, rfl, rfl, rfl, rfl, rfl,
   by decide, by decide, by decide, by decide⟩

/-- C7: the default-constructed classifier equals `Unspecified`, and the
default-constructed `ICEParameters` record has empty `username_fragment`,
empty `password`, and `ice_lite = false`. -/
theorem defaults_c7 :
    ICECandidateType.default_value = ICECandidateType.Unspecified ∧
    ICEParameters.default_value.username_fragment = "" ∧
    ICEParameters.default_value.password = "" ∧
    ICEParameters.default_value.ice_lite = false := by
  decide

/-- C8: the derived equality on `ICEParameters` is reflexive, symmetric,
and field-wise: `a == b` holds iff the three fields are pairwise equal. -/
theorem params_eq_c8 (a b : ICEParameters) :
    ICEParameters.eq a a = true ∧
    (ICEParameters.eq a b = true ↔ ICEParameters.eq b a = true) ∧
    (ICEParameters.eq a b = true ↔
      a.username_fragment = b.username_fragment ∧
      a.password = b.password ∧
      a.ice_lite = b.ice_lite) := by
  refine ⟨?_, ?_, ?_⟩
  · simp [ICEParameters.eq]
  · simp only [ICEParameters.eq, Bool.and_eq_true, beq_iff_eq]
    constructor
    · rintro ⟨⟨hu, hp⟩, hl⟩
      exact ⟨⟨hu.symm, hp.symm⟩, hl.symm⟩
    · rintro ⟨⟨hu, hp⟩, hl⟩
      exact ⟨⟨hu.symm, hp.symm⟩, hl.symm⟩
  · simp only [ICEParameters.eq, Bool.and_eq_true, beq_iff_eq, and_assoc]

/-- C9: serializing any `ICEParameters` record through the structured
serialization format and deserializing the result reproduces a record
equal to the original. -/
theorem params_roundtrip_c9 (p : ICEParameters) :
    ICEParameters.deserialize (ICEParameters.serialize p) = Except.ok p := by
  cases p
  rfl

/-- C10: deserializing the classifier through the derived structured
serialization format is partial, unlike the never-failing string
conversion: the four renamed tags deserialize to their corresponding
variants and the tag "Unspecified" deserializes to `Unspecified`, but any
other tag yields a deserialization error rather than falling back to
`Unspecified`. -/
theorem serde_from_tag_partial_c10 (s : String)
    (h0 : s ≠ "Unspecified") (h1 : s ≠ "host") (h2 : s ≠ "srflx")
    (h3 : s ≠ "prflx") (h4 : s ≠ "relay") :
    ICECandidateType.serdeFromTag "host" = Except.ok ICECandidateType.Host ∧
    ICECandidateType.serdeFromTag "srflx" = Except.ok ICECandidateType.Srflx ∧
    ICECandidateType.serdeFromTag "prflx" = Except.ok ICECandidateType.Prflx ∧
    ICECandidateType.serdeFromTag "relay" = Except.ok ICECandidateType.Relay ∧
    ICECandidateType.serdeFromTag "Unspecified"
      = Except.ok ICECandidateType.Unspecified ∧
    ICECandidateType.serdeFromTag s = Except.error ("unknown variant " ++ s) := by
  refine ⟨rfl, rfl, rfl, rfl, rfl, ?_⟩
  unfold ICECandidateType.serdeFromTag
  rw [if_neg h0, if_neg h1, if_neg h2, if_neg h3, if_neg h4]

/-- Witness for C10 at the concrete unknown tag "PRFLX": an error, not a
fallback to `Unspecified`. -/
theorem serde_from_tag_partial_c10_witness :
    ICECandidateType.serdeFromTag "PRFLX" = Except.error ("unknown variant " ++ "PRFLX") :=
  (serde_from_tag_partial_c10 "PRFLX"
    (by decide) (by decide) (by decide) (by decide) (by decide)).2.2.2.2.2
